import Mathlib

/-!
Verification of the wabridge message-dispatch client (`src/wabridge/client.py`,
`src/wabridge/exceptions.py`).

The client is embedded shallowly:

* JSON bodies are ordered key/value lists (`Json`), mirroring Python dict
  insertion order; values are modelled by `JVal`.
* An HTTP round trip is abstracted by `HttpOutcome`: either a transport-level
  exception (`exn`, what `httpx` may raise) or a response carrying a status
  code and a body whose JSON decoding may itself fail (`Except String Json`,
  the error holding the description of the decode error, `str(e)` in Python).
* Python exceptions raised by the client are values of `PyExn`; a function
  that may raise returns `Except PyExn _`.
* Python truthiness of an optional-string keyword argument is `truthy`
  (absent or empty string are falsy).
* The synchronous batch path submits one future per input index and writes
  each result back by index as futures complete; the unknown completion
  order is an explicit argument `completed`, constrained to be a permutation
  of the submitted futures.
-/

/-- JSON-like values in request and response bodies. -/
inductive JVal where
  | str (s : String)
  | bool (b : Bool)
  | num (n : Int)
  | arr (xs : List JVal)

/-- A JSON object: an ordered list of key/value pairs (Python dict order). -/
abbrev Json := List (String × JVal)

/-- Python `dict.get(k)`: the value at the first matching key, if any. -/
def jsonGet (j : Json) (k : String) : Option JVal :=
  match j.find? (fun kv => kv.1 == k) with
  | some kv => some kv.2
  | none => none

/-- Python `dict.get(k, d)`: lookup with a default. -/
def jsonGetD (j : Json) (k : String) (d : JVal) : JVal :=
  (jsonGet j k).getD d

/-- The three exception classes of `exceptions.py`: `ConnectionError`,
`ValidationError` and the base `WABridgeError`. -/
inductive ErrKind where
  | connection
  | validation
  | generic
  deriving DecidableEq, Repr

/-- A Python exception escaping a client method: a transport error from
`httpx`, a JSON decode error from `response.json()` (carrying `str(e)`),
or one of the `WABridgeError` classes carrying message and status code. -/
inductive PyExn where
  | http (e : String)
  | jsonDecode (e : String)
  | bridge (kind : ErrKind) (message : JVal) (statusCode : Nat)

/-- One HTTP round trip as seen by the client: either the request itself
raised, or a response arrived with a status code and a body that either
decodes to JSON or raises a decode error with the given description. -/
inductive HttpOutcome where
  | exn (e : String)
  | resp (statusCode : Nat) (body : Except String Json)

/-- Python truthiness of an `Optional[str]` argument: `None` and `""` are
falsy, every other string is truthy. -/
def truthy : Option String → Bool
  | some s => s != ""
  | none => false

/-- The keyword arguments shared by `_build_content` and the `send*`
methods (`message` plus the media options). `None` everywhere by default. -/
structure ContentArgs where
  message : Option String := none
  image : Option String := none
  video : Option String := none
  audio : Option String := none
  document : Option String := none
  caption : Option String := none
  mimetype : Option String := none
  filename : Option String := none
  ptt : Option Bool := none

/-- All keyword arguments left at their `None` default. -/
def ContentArgs.noArgs : ContentArgs := {}

/-- Models `if v: payload[k] = v` for an optional string argument. -/
def optStrField (k : String) (v : Option String) : Json :=
  if truthy v then [(k, JVal.str (v.getD ""))] else []

/-- The first positional argument of `send`: absent (`None`), a plain
string, or a list of `(phone, message)` pairs. -/
inductive Target where
  | noArg
  | str (s : String)
  | many (items : List (String × String))

/-- What a `send*` call does on the wire: a single POST of a JSON body to a
path, or delegation to the batch sender. -/
inductive SendAction where
  | post (path : String) (body : Json)
  | batchSend (items : List (String × String))

namespace WABridge

/-- Embeds `WABridge._build_content`: the content payload, selected by the
`if image / elif video / elif audio / elif document / elif message`
chain, each branch adding its own auxiliary fields. -/
def build_content (a : ContentArgs) : Json :=
  if truthy a.image then
    ("image", JVal.str (a.image.getD "")) :: optStrField "caption" a.caption
  else if truthy a.video then
    ("video", JVal.str (a.video.getD "")) :: optStrField "caption" a.caption
  else if truthy a.audio then
    ("audio", JVal.str (a.audio.getD "")) ::
      (match a.ptt with
       | some b => [("ptt", JVal.bool b)]
       | none => [])
  else if truthy a.document then
    ("document", JVal.str (a.document.getD "")) ::
      (optStrField "mimetype" a.mimetype ++ optStrField "fileName" a.filename ++
        optStrField "caption" a.caption)
  else if truthy a.message then
    [("message", JVal.str (a.message.getD ""))]
  else []

/-- Embeds `WABridge._handle_error`: returns `none` on 200 (the method returns
normally); otherwise decodes the body (a decode failure propagates as the
decode exception) and raises `ConnectionError` on 500, `ValidationError`
on 400, and `WABridgeError` on any other status, each carrying
`data.get("error", "Unknown error")`. -/
def handle_error (statusCode : Nat) (body : Except String Json) : Option PyExn :=
  if statusCode = 200 then none
  else
    match body with
    | Except.error e => some (PyExn.jsonDecode e)
    | Except.ok data =>
      let error := jsonGetD data "error" (JVal.str "Unknown error")
      if statusCode = 500 then some (PyExn.bridge ErrKind.connection error 500)
      else if statusCode = 400 then some (PyExn.bridge ErrKind.validation error 400)
      else some (PyExn.bridge ErrKind.generic error statusCode)

/-- The shared single-request pattern `self._handle_error(r); return r.json()`
applied to one HTTP outcome. -/
def request (o : HttpOutcome) : Except PyExn Json :=
  match o with
  | HttpOutcome.exn e => Except.error (PyExn.http e)
  | HttpOutcome.resp st body =>
    match handle_error st body with
    | some ex => Except.error ex
    | none =>
      match body with
      | Except.ok j => Except.ok j
      | Except.error e => Except.error (PyExn.jsonDecode e)

/-- Embeds `WABridge.status`: `GET /status`, error translation, decoded body. -/
def status (o : HttpOutcome) : Except PyExn Json :=
  request o

/-- Embeds `WABridge.is_connected`: `status().get("status") == "open"`, with every
exception converted to `False`. -/
def is_connected (o : HttpOutcome) : Bool :=
  match status o with
  | Except.ok j =>
    match jsonGet j "status" with
    | some (JVal.str s) => s == "open"
    | _ => false
  | Except.error _ => false

/-- Embeds `WABridge.groups`: `GET /groups`, error translation, then
`r.json().get("groups", [])`. -/
def groups (o : HttpOutcome) : Except PyExn JVal :=
  (request o).map (fun j => jsonGetD j "groups" (JVal.arr []))

/-- Embeds `WABridge.send` routing: a list first argument goes to the batch path;
otherwise the content payload is built, and the request is `/send/self`
with the bare payload (no first argument), `/send` with
`{phone, **content}` (media present), `/send/self` with `{message}` (plain
string, no `message` argument: the string is re-interpreted as the message),
or `/send` with `{phone, message}`. -/
def send (pom : Target) (a : ContentArgs) : SendAction :=
  let has_media := truthy a.image || truthy a.video || truthy a.audio || truthy a.document
  match pom with
  | Target.many items => SendAction.batchSend items
  | Target.noArg => SendAction.post "/send/self" (build_content a)
  | Target.str s =>
    if has_media then SendAction.post "/send" (("phone", JVal.str s) :: build_content a)
    else
      match a.message with
      | none => SendAction.post "/send/self" [("message", JVal.str s)]
      | some m => SendAction.post "/send" [("phone", JVal.str s), ("message", JVal.str m)]

/-- Embeds `WABridge.send_group`: `POST /send/group` with `{groupId, **content}`. -/
def send_group (group_id : String) (a : ContentArgs) : SendAction :=
  SendAction.post "/send/group" (("groupId", JVal.str group_id) :: build_content a)

/-- Embeds `WABridge.send_channel`: `POST /send/channel` with `{channelId, **content}`. -/
def send_channel (channel_id : String) (a : ContentArgs) : SendAction :=
  SendAction.post "/send/channel" (("channelId", JVal.str channel_id) :: build_content a)

/-- The `_do_send` worker of `WABridge._send_many`: a 200 response yields
the decoded body; any other response yields
`{"success": False, "error": data.get("error", "Unknown error"), "to": phone}`;
any exception `e` (transport error, undecodable body) is caught and yields
`{"success": False, "error": str(e), "to": phone}`. -/
def do_send (phone msg : String) (o : HttpOutcome) : Json :=
  match o with
  | HttpOutcome.exn e =>
    [("success", JVal.bool false), ("error", JVal.str e), ("to", JVal.str phone)]
  | HttpOutcome.resp st body =>
    if st = 200 then
      match body with
      | Except.ok j => j
      | Except.error e =>
        [("success", JVal.bool false), ("error", JVal.str e), ("to", JVal.str phone)]
    else
      match body with
      | Except.ok data =>
        [("success", JVal.bool false),
         ("error", jsonGetD data "error" (JVal.str "Unknown error")),
         ("to", JVal.str phone)]
      | Except.error e =>
        [("success", JVal.bool false), ("error", JVal.str e), ("to", JVal.str phone)]

/-- The futures submitted by `WABridge._send_many`: one per input index,
each eventually yielding `(index, _do_send result)`. `outcomes i` is the
HTTP outcome observed by the worker for item `i`. -/
def futures (outcomes : Nat → HttpOutcome) (msgs : List (String × String)) :
    List (Nat × Json) :=
  msgs.enum.map (fun x => (x.1, do_send x.2.1 x.2.2 (outcomes x.1)))

/-- The write-back loop of `WABridge._send_many`:
`for future in as_completed(futures): results[idx] = result`, folded over
the completed futures in completion order. -/
def fillResults (completed : List (Nat × Json)) (acc : List (Option Json)) :
    List (Option Json) :=
  completed.foldl (fun res ir => res.set ir.1 (some ir.2)) acc

/-- Embeds `WABridge._send_many`: `results = [None] * len(messages)`, then the
write-back loop over the futures in completion order `completed`. -/
def send_many (msgs : List (String × String)) (completed : List (Nat × Json)) :
    List (Option Json) :=
  fillResults completed (List.replicate msgs.length none)

end WABridge

namespace AsyncWABridge

/-- Embeds `AsyncWABridge._build_content` (same `if/elif` chain as the sync class). -/
def build_content (a : ContentArgs) : Json :=
  if truthy a.image then
    ("image", JVal.str (a.image.getD "")) :: optStrField "caption" a.caption
  else if truthy a.video then
    ("video", JVal.str (a.video.getD "")) :: optStrField "caption" a.caption
  else if truthy a.audio then
    ("audio", JVal.str (a.audio.getD "")) ::
      (match a.ptt with
       | some b => [("ptt", JVal.bool b)]
       | none => [])
  else if truthy a.document then
    ("document", JVal.str (a.document.getD "")) ::
      (optStrField "mimetype" a.mimetype ++ optStrField "fileName" a.filename ++
        optStrField "caption" a.caption)
  else if truthy a.message then
    [("message", JVal.str (a.message.getD ""))]
  else []

/-- Embeds `AsyncWABridge._handle_error` (same classification as the sync class). -/
def handle_error (statusCode : Nat) (body : Except String Json) : Option PyExn :=
  if statusCode = 200 then none
  else
    match body with
    | Except.error e => some (PyExn.jsonDecode e)
    | Except.ok data =>
      let error := jsonGetD data "error" (JVal.str "Unknown error")
      if statusCode = 500 then some (PyExn.bridge ErrKind.connection error 500)
      else if statusCode = 400 then some (PyExn.bridge ErrKind.validation error 400)
      else some (PyExn.bridge ErrKind.generic error statusCode)

/-- The shared `await` single-request pattern of the async class. -/
def request (o : HttpOutcome) : Except PyExn Json :=
  match o with
  | HttpOutcome.exn e => Except.error (PyExn.http e)
  | HttpOutcome.resp st body =>
    match handle_error st body with
    | some ex => Except.error ex
    | none =>
      match body with
      | Except.ok j => Except.ok j
      | Except.error e => Except.error (PyExn.jsonDecode e)

/-- Embeds `AsyncWABridge.status`. -/
def status (o : HttpOutcome) : Except PyExn Json :=
  request o

/-- Embeds `AsyncWABridge.is_connected`. -/
def is_connected (o : HttpOutcome) : Bool :=
  match status o with
  | Except.ok j =>
    match jsonGet j "status" with
    | some (JVal.str s) => s == "open"
    | _ => false
  | Except.error _ => false

/-- Embeds `AsyncWABridge.groups`. -/
def groups (o : HttpOutcome) : Except PyExn JVal :=
  (request o).map (fun j => jsonGetD j "groups" (JVal.arr []))

/-- Embeds `AsyncWABridge.send` routing (same branches as the sync class; the async
variant has no `max_workers` parameter, which does not affect routing). -/
def send (pom : Target) (a : ContentArgs) : SendAction :=
  let has_media := truthy a.image || truthy a.video || truthy a.audio || truthy a.document
  match pom with
  | Target.many items => SendAction.batchSend items
  | Target.noArg => SendAction.post "/send/self" (build_content a)
  | Target.str s =>
    if has_media then SendAction.post "/send" (("phone", JVal.str s) :: build_content a)
    else
      match a.message with
      | none => SendAction.post "/send/self" [("message", JVal.str s)]
      | some m => SendAction.post "/send" [("phone", JVal.str s), ("message", JVal.str m)]

/-- Embeds `AsyncWABridge.send_group`. -/
def send_group (group_id : String) (a : ContentArgs) : SendAction :=
  SendAction.post "/send/group" (("groupId", JVal.str group_id) :: build_content a)

/-- Embeds `AsyncWABridge.send_channel`. -/
def send_channel (channel_id : String) (a : ContentArgs) : SendAction :=
  SendAction.post "/send/channel" (("channelId", JVal.str channel_id) :: build_content a)

/-- The `_do_send` coroutine of `AsyncWABridge._send_many` (same record
construction as the sync worker, without the index). -/
def do_send (phone msg : String) (o : HttpOutcome) : Json :=
  match o with
  | HttpOutcome.exn e =>
    [("success", JVal.bool false), ("error", JVal.str e), ("to", JVal.str phone)]
  | HttpOutcome.resp st body =>
    if st = 200 then
      match body with
      | Except.ok j => j
      | Except.error e =>
        [("success", JVal.bool false), ("error", JVal.str e), ("to", JVal.str phone)]
    else
      match body with
      | Except.ok data =>
        [("success", JVal.bool false),
         ("error", jsonGetD data "error" (JVal.str "Unknown error")),
         ("to", JVal.str phone)]
      | Except.error e =>
        [("success", JVal.bool false), ("error", JVal.str e), ("to", JVal.str phone)]

/-- Embeds `AsyncWABridge._send_many`: `asyncio.gather` over one `_do_send`
coroutine per item, which returns the results in input order. -/
def send_many (outcomes : Nat → HttpOutcome) (msgs : List (String × String)) :
    List Json :=
  msgs.enum.map (fun x => do_send x.2.1 x.2.2 (outcomes x.1))

end AsyncWABridge

/-- Whether a payload key is one of the five mutually exclusive kind
fields `image`, `video`, `audio`, `document`, `message`. -/
def isKind (k : String) : Bool :=
  k == "image" || k == "video" || k == "audio" || k == "document" || k == "message"

/-- The number of kind fields among the keys of a JSON body. -/
def kindCount (b : Json) : Nat :=
  ((b.map Prod.fst).filter isKind).length

/-- The kind selected by the precedence order
image > video > audio > document > message. -/
def pickKind (a : ContentArgs) : String :=
  if truthy a.image then "image"
  else if truthy a.video then "video"
  else if truthy a.audio then "audio"
  else if truthy a.document then "document"
  else "message"

/-- Whether any of the five kind options is truthy. -/
def anyKind (a : ContentArgs) : Bool :=
  truthy a.image || truthy a.video || truthy a.audio || truthy a.document ||
    truthy a.message

/-- The `WABridgeError` subclass `_handle_error` raises for a given non-200
status code. -/
def errKindFor (st : Nat) : ErrKind :=
  if st = 500 then ErrKind.connection
  else if st = 400 then ErrKind.validation
  else ErrKind.generic

/-- The JSON body of a single-request send action, if it is one. -/
def SendAction.bodyOf : SendAction → Option Json
  | SendAction.post _ b => some b
  | SendAction.batchSend _ => none

namespace WABridge

lemma fillResults_nil (acc : List (Option Json)) : fillResults [] acc = acc := rfl

lemma fillResults_cons (x : Nat × Json) (c : List (Nat × Json)) (acc : List (Option Json)) :
    fillResults (x :: c) acc = fillResults c (acc.set x.1 (some x.2)) := rfl

lemma fillResults_length (c : List (Nat × Json)) (acc : List (Option Json)) :
    (fillResults c acc).length = acc.length := by
  induction c generalizing acc with
  | nil => rfl
  | cons x c ih => rw [fillResults_cons, ih, List.length_set]

lemma fillResults_getElem_not_mem (c : List (Nat × Json)) (acc : List (Option Json))
    (i : Nat) (h : i ∉ c.map Prod.fst) :
    (fillResults c acc)[i]? = acc[i]? := by
  induction c generalizing acc with
  | nil => rfl
  | cons x c ih =>
    rw [List.map_cons] at h
    have h1 : i ≠ x.1 := fun he => h (he ▸ List.mem_cons_self _ _)
    have h2 : i ∉ c.map Prod.fst := fun hm => h (List.mem_cons_of_mem _ hm)
    rw [fillResults_cons, ih _ h2, List.getElem?_set_ne h1.symm]

lemma fillResults_getElem_mem (c : List (Nat × Json)) (i : Nat) (r : Json) :
    ∀ acc : List (Option Json), (c.map Prod.fst).Nodup → (i, r) ∈ c →
      i < acc.length → (fillResults c acc)[i]? = some (some r) := by
  induction c with
  | nil =>
    intro acc _ hmem _
    cases hmem
  | cons x c ih =>
    intro acc hnd hmem hi
    rw [fillResults_cons]
    rcases List.mem_cons.1 hmem with heq | hmem2
    · have hni : i ∉ c.map Prod.fst := by
        rw [List.map_cons] at hnd
        have hx := (List.nodup_cons.1 hnd).1
        rw [← heq] at hx
        exact hx
      rw [fillResults_getElem_not_mem c _ i hni, ← heq, List.getElem?_set_self]
      simpa using hi
    · have hnd2 : (c.map Prod.fst).Nodup := by
        rw [List.map_cons] at hnd
        exact (List.nodup_cons.1 hnd).2
      have hi2 : i < (acc.set x.1 (some x.2)).length := by
        rw [List.length_set]; exact hi
      exact ih _ hnd2 hmem2 hi2

lemma futures_map_fst (outcomes : Nat → HttpOutcome) (msgs : List (String × String)) :
    (futures outcomes msgs).map Prod.fst = List.range msgs.length := by
  rw [futures, List.map_map]
  have hc : (Prod.fst ∘ fun x : Nat × String × String =>
      (x.1, do_send x.2.1 x.2.2 (outcomes x.1))) = Prod.fst := rfl
  rw [hc, List.enum_map_fst]

lemma futures_getElem (outcomes : Nat → HttpOutcome) (msgs : List (String × String))
    (i : Nat) (hi : i < msgs.length) :
    (futures outcomes msgs)[i]? =
      some (i, do_send (msgs.get ⟨i, hi⟩).1 (msgs.get ⟨i, hi⟩).2 (outcomes i)) := by
  rw [futures, List.getElem?_map, List.getElem?_enum, List.getElem?_eq_getElem hi]
  rfl

lemma send_many_length (msgs : List (String × String)) (completed : List (Nat × Json)) :
    (send_many msgs completed).length = msgs.length := by
  rw [send_many, fillResults_length, List.length_replicate]

lemma send_many_getElem (outcomes : Nat → HttpOutcome) (msgs : List (String × String))
    (completed : List (Nat × Json)) (hperm : completed.Perm (futures outcomes msgs))
    (i : Nat) (hi : i < msgs.length) :
    (send_many msgs completed)[i]? =
      some (some (do_send (msgs.get ⟨i, hi⟩).1 (msgs.get ⟨i, hi⟩).2 (outcomes i))) := by
  have hnd : (completed.map Prod.fst).Nodup := by
    have hp := hperm.map Prod.fst
    rw [futures_map_fst] at hp
    exact hp.nodup_iff.2 (List.nodup_range _)
  have hmem : (i, do_send (msgs.get ⟨i, hi⟩).1 (msgs.get ⟨i, hi⟩).2 (outcomes i)) ∈
      completed := by
    apply hperm.mem_iff.2
    exact List.getElem?_mem (futures_getElem outcomes msgs i hi)
  exact fillResults_getElem_mem _ _ _ _ hnd hmem (by simpa using hi)

end WABridge

lemma optStrField_keys (k : String) (v : Option String) :
    (optStrField k v).map Prod.fst = if truthy v then [k] else [] := by
  unfold optStrField
  split <;> rfl

lemma filter_isKind_build_content (a : ContentArgs) :
    ((WABridge.build_content a).map Prod.fst).filter isKind =
      if anyKind a then [pickKind a] else [] := by
  unfold WABridge.build_content anyKind pickKind
  cases hi : truthy a.image <;> cases hv : truthy a.video <;>
    cases hau : truthy a.audio <;> cases hd : truthy a.document <;>
      cases hm : truthy a.message <;> (try cases hp : a.ptt) <;>
        simp [optStrField, isKind]

/-- C1: whenever at least one of the image/video/audio/document/message
options carries a usable (non-empty) value, the content payload built by
`_build_content` contains exactly one kind field — the one given by the
precedence order image > video > audio > document > message — and only the
kind-appropriate auxiliary fields: `caption` only with image, video or
document, `mimetype` and `fileName` only with document, `ptt` only with
audio. -/
theorem build_content_exactly_one_kind (a : ContentArgs) (h : anyKind a = true) :
    ((WABridge.build_content a).map Prod.fst).filter isKind = [pickKind a]
    ∧ ("caption" ∈ (WABridge.build_content a).map Prod.fst →
        pickKind a = "image" ∨ pickKind a = "video" ∨ pickKind a = "document")
    ∧ ("mimetype" ∈ (WABridge.build_content a).map Prod.fst →
        pickKind a = "document")
    ∧ ("fileName" ∈ (WABridge.build_content a).map Prod.fst →
        pickKind a = "document")
    ∧ ("ptt" ∈ (WABridge.build_content a).map Prod.fst →
        pickKind a = "audio") := by
  refine ⟨by rw [filter_isKind_build_content, if_pos h], ?_, ?_, ?_, ?_⟩
  all_goals
    unfold WABridge.build_content pickKind
    cases hi : truthy a.image <;> cases hv : truthy a.video <;>
      cases hau : truthy a.audio <;> cases hd : truthy a.document <;>
        cases hm : truthy a.message <;> (try cases hp : a.ptt) <;>
          simp [optStrField]

/-- Witness for C1 at a concrete input: an image with a caption yields the
single kind field `image`. -/
theorem build_content_exactly_one_kind_check :
    ((WABridge.build_content
        { image := some "http://x/a.jpg", caption := some "hi" }).map
      Prod.fst).filter isKind = ["image"] :=
  (build_content_exactly_one_kind
    { image := some "http://x/a.jpg", caption := some "hi" } (by decide)).1

/-- C2: `send(s)` with a plain string, no `message` argument and no media
options issues `POST /send/self` with body `{message: s}` — the string is
re-interpreted as the message body, not a phone number — and does not
issue `POST /send`. -/
theorem send_single_string_to_self (s : String) (a : ContentArgs)
    (hmsg : a.message = none) (himg : a.image = none) (hvid : a.video = none)
    (haud : a.audio = none) (hdoc : a.document = none) :
    WABridge.send (Target.str s) a =
      SendAction.post "/send/self" [("message", JVal.str s)]
    ∧ ∀ b : Json, WABridge.send (Target.str s) a ≠ SendAction.post "/send" b := by
  have h1 : WABridge.send (Target.str s) a =
      SendAction.post "/send/self" [("message", JVal.str s)] := by
    simp [WABridge.send, truthy, hmsg, himg, hvid, haud, hdoc]
  refine ⟨h1, ?_⟩
  intro b hb
  rw [h1] at hb
  injection hb with hpath _
  exact absurd hpath (by decide)

/-- Witness for C2 at a concrete input. -/
theorem send_single_string_to_self_check :
    WABridge.send (Target.str "hello") ContentArgs.noArgs =
      SendAction.post "/send/self" [("message", JVal.str "hello")] :=
  (send_single_string_to_self "hello" ContentArgs.noArgs rfl rfl rfl rfl rfl).1

/-- C3: for every batch input and every completion order of the submitted
futures, the result sequence has the same length as the input, and the
result at index `i` is the outcome of sending to the pair at input index
`i`, regardless of the order in which the requests complete. -/
theorem batch_results_in_input_order (outcomes : Nat → HttpOutcome)
    (msgs : List (String × String)) (completed : List (Nat × Json))
    (hperm : completed.Perm (WABridge.futures outcomes msgs)) :
    (WABridge.send_many msgs completed).length = msgs.length
    ∧ ∀ (i : Nat) (hi : i < msgs.length),
        (WABridge.send_many msgs completed)[i]? =
          some (some (WABridge.do_send (msgs.get ⟨i, hi⟩).1 (msgs.get ⟨i, hi⟩).2
            (outcomes i))) :=
  ⟨WABridge.send_many_length msgs completed,
   fun i hi => WABridge.send_many_getElem outcomes msgs completed hperm i hi⟩

/-- Witness for C3 at a concrete input: two items whose futures complete in
reverse order still land in their input slots. -/
theorem batch_results_in_input_order_check :
    (WABridge.send_many [("911", "hi"), ("922", "ho")]
      [(1, [("success", JVal.bool false), ("error", JVal.str "down"),
            ("to", JVal.str "922")]),
       (0, [("success", JVal.bool false), ("error", JVal.str "down"),
            ("to", JVal.str "911")])])[0]? =
      some (some [("success", JVal.bool false), ("error", JVal.str "down"),
                  ("to", JVal.str "911")]) :=
  (batch_results_in_input_order (fun _ => HttpOutcome.exn "down")
    [("911", "hi"), ("922", "ho")]
    [(1, [("success", JVal.bool false), ("error", JVal.str "down"),
          ("to", JVal.str "922")]),
     (0, [("success", JVal.bool false), ("error", JVal.str "down"),
          ("to", JVal.str "911")])]
    (List.Perm.swap _ _ _)).2 0 (by decide)

/-- C4: batch send never raises; a non-200 response yields the synthesized
record `{success: false, error: <the error field of the body, or the fallback when
absent>, to: phone}`, an undecodable non-200 body or any lower-level
exception yields the same record with the description of the caught error,
every result slot is filled, and the result at an index depends only on
the outcome of that item alone. -/
theorem batch_failures_synthesized_and_isolated
    (phone msg e es : String) (st : Nat) (j : Json)
    (outcomes outcomes2 : Nat → HttpOutcome) (msgs : List (String × String))
    (completed completed2 : List (Nat × Json)) (i : Nat)
    (hst : st ≠ 200)
    (h1 : completed.Perm (WABridge.futures outcomes msgs))
    (h2 : completed2.Perm (WABridge.futures outcomes2 msgs))
    (hi : i < msgs.length) (hagree : outcomes i = outcomes2 i) :
    WABridge.do_send phone msg (HttpOutcome.exn e) =
      [("success", JVal.bool false), ("error", JVal.str e), ("to", JVal.str phone)]
    ∧ WABridge.do_send phone msg (HttpOutcome.resp st (Except.ok j)) =
      [("success", JVal.bool false),
       ("error", jsonGetD j "error" (JVal.str "Unknown error")),
       ("to", JVal.str phone)]
    ∧ WABridge.do_send phone msg (HttpOutcome.resp st (Except.error es)) =
      [("success", JVal.bool false), ("error", JVal.str es), ("to", JVal.str phone)]
    ∧ (WABridge.send_many msgs completed)[i]? =
        (WABridge.send_many msgs completed2)[i]?
    ∧ ∃ r : Json, (WABridge.send_many msgs completed)[i]? = some (some r) := by
  refine ⟨rfl, ?_, ?_, ?_, ?_⟩
  · simp [WABridge.do_send, hst]
  · simp [WABridge.do_send, hst]
  · rw [WABridge.send_many_getElem outcomes msgs completed h1 i hi,
      WABridge.send_many_getElem outcomes2 msgs completed2 h2 i hi, hagree]
  · exact ⟨_, WABridge.send_many_getElem outcomes msgs completed h1 i hi⟩

/-- Witness for C4 at a concrete input: a 400 response whose body carries
an error string yields the synthesized failure record. -/
theorem batch_failures_synthesized_and_isolated_check :
    WABridge.do_send "911" "a"
        (HttpOutcome.resp 400 (Except.ok [("error", JVal.str "bad")])) =
      [("success", JVal.bool false), ("error", JVal.str "bad"),
       ("to", JVal.str "911")] :=
  (batch_failures_synthesized_and_isolated "911" "a" "x" "y" 400
    [("error", JVal.str "bad")]
    (fun _ => HttpOutcome.exn "x") (fun _ => HttpOutcome.exn "x") [("911", "a")]
    (WABridge.futures (fun _ => HttpOutcome.exn "x") [("911", "a")])
    (WABridge.futures (fun _ => HttpOutcome.exn "x") [("911", "a")])
    0 (by decide) (List.Perm.refl _) (List.Perm.refl _) (by decide) rfl).2.1

/-- C5: for a non-200 response whose body is `{error: s}`, the
single-request operations (`status`, `groups`, and the `send*` family, all
of which translate responses through `_handle_error` and the shared
request pattern) raise a `ConnectionError` carrying `s` and status code
500 on a 500, a `ValidationError` on a 400, and a base `WABridgeError`
carrying the status code on any other non-200 status; a 200 response
raises nothing. -/
theorem error_translation_by_status (st : Nat) (s : String) (j : Json)
    (hne : st ≠ 200) (h5 : st ≠ 500) (h4 : st ≠ 400) :
    WABridge.handle_error 500 (Except.ok [("error", JVal.str s)]) =
      some (PyExn.bridge ErrKind.connection (JVal.str s) 500)
    ∧ WABridge.handle_error 400 (Except.ok [("error", JVal.str s)]) =
      some (PyExn.bridge ErrKind.validation (JVal.str s) 400)
    ∧ WABridge.handle_error st (Except.ok [("error", JVal.str s)]) =
      some (PyExn.bridge ErrKind.generic (JVal.str s) st)
    ∧ WABridge.handle_error 200 (Except.ok j) = none
    ∧ WABridge.status (HttpOutcome.resp 500 (Except.ok [("error", JVal.str s)])) =
      Except.error (PyExn.bridge ErrKind.connection (JVal.str s) 500)
    ∧ WABridge.groups (HttpOutcome.resp 500 (Except.ok [("error", JVal.str s)])) =
      Except.error (PyExn.bridge ErrKind.connection (JVal.str s) 500)
    ∧ WABridge.status (HttpOutcome.resp 400 (Except.ok [("error", JVal.str s)])) =
      Except.error (PyExn.bridge ErrKind.validation (JVal.str s) 400)
    ∧ WABridge.request (HttpOutcome.resp st (Except.ok [("error", JVal.str s)])) =
      Except.error (PyExn.bridge ErrKind.generic (JVal.str s) st)
    ∧ WABridge.request (HttpOutcome.resp 200 (Except.ok j)) = Except.ok j := by
  have hgen : WABridge.handle_error st (Except.ok [("error", JVal.str s)]) =
      some (PyExn.bridge ErrKind.generic (JVal.str s) st) := by
    unfold WABridge.handle_error
    rw [if_neg hne]
    simp [h5, h4, jsonGetD, jsonGet]
  refine ⟨rfl, rfl, hgen, ?_, rfl, rfl, rfl, ?_, rfl⟩
  · unfold WABridge.handle_error
    rw [if_pos rfl]
  · simp [WABridge.request, hgen]

/-- Witness for C5 at a concrete status code 503. -/
theorem error_translation_by_status_check :
    WABridge.handle_error 503 (Except.ok [("error", JVal.str "oops")]) =
      some (PyExn.bridge ErrKind.generic (JVal.str "oops") 503) :=
  (error_translation_by_status 503 "oops" [] (by decide) (by decide)
    (by decide)).2.2.1

/-- C6: `is_connected` never raises: it returns `true` exactly when the
status call succeeds with a snapshot whose `status` field is the string
"open", and returns `false` whenever the status call raises any exception
(transport-level or translated). -/
theorem is_connected_iff_open (o : HttpOutcome) :
    (WABridge.is_connected o = true ↔
      ∃ j, WABridge.status o = Except.ok j
        ∧ jsonGet j "status" = some (JVal.str "open"))
    ∧ ∀ ex, WABridge.status o = Except.error ex →
        WABridge.is_connected o = false := by
  cases hs : WABridge.status o with
  | error ex =>
    have hic : WABridge.is_connected o = false := by
      unfold WABridge.is_connected
      rw [hs]
    refine ⟨⟨fun h => absurd (hic ▸ h) (by decide), ?_⟩, fun _ _ => hic⟩
    rintro ⟨j, hj, _⟩
    cases hj
  | ok j =>
    have hic : WABridge.is_connected o =
        (match jsonGet j "status" with
         | some (JVal.str s) => s == "open"
         | _ => false) := by
      unfold WABridge.is_connected
      rw [hs]
    refine ⟨?_, ?_⟩
    · rw [hic]
      cases hg : jsonGet j "status" with
      | none =>
        constructor
        · intro h; cases h
        · rintro ⟨j2, hj2, hg2⟩
          injection hj2 with he
          subst he
          rw [hg] at hg2
          cases hg2
      | some v =>
        cases v with
        | str s2 =>
          constructor
          · intro h
            have hs2 : s2 = "open" := by simpa using h
            exact ⟨j, rfl, by rw [hg, hs2]⟩
          · rintro ⟨j2, hj2, hg2⟩
            injection hj2 with he
            subst he
            rw [hg] at hg2
            injection hg2 with hv
            injection hv with hsv
            simp [hsv]
        | bool b =>
          constructor
          · intro h; cases h
          · rintro ⟨j2, hj2, hg2⟩
            injection hj2 with he
            subst he
            rw [hg] at hg2
            injection hg2 with hv
            cases hv
        | num n =>
          constructor
          · intro h; cases h
          · rintro ⟨j2, hj2, hg2⟩
            injection hj2 with he
            subst he
            rw [hg] at hg2
            injection hg2 with hv
            cases hv
        | arr xs =>
          constructor
          · intro h; cases h
          · rintro ⟨j2, hj2, hg2⟩
            injection hj2 with he
            subst he
            rw [hg] at hg2
            injection hg2 with hv
            cases hv
    · intro ex hex
      cases hex

/-- Witness for C6 at a concrete input: an unreachable server yields
`false`. -/
theorem is_connected_iff_open_check :
    WABridge.is_connected (HttpOutcome.exn "connection refused") = false :=
  (is_connected_iff_open (HttpOutcome.exn "connection refused")).2
    (PyExn.http "connection refused") rfl

/-- C9: a non-200 response whose body decodes to JSON without an `error`
key is translated into an error carrying the literal fallback message
"Unknown error" — the same fallback the batch worker uses — while still
classified by status code (500 connectivity, 400 validation, other
generic). -/
theorem fallback_message_unknown_error (st : Nat) (j : Json) (phone msg : String)
    (hne : st ≠ 200) (hmiss : jsonGet j "error" = none) :
    WABridge.handle_error st (Except.ok j) =
      some (PyExn.bridge (errKindFor st) (JVal.str "Unknown error") st)
    ∧ WABridge.do_send phone msg (HttpOutcome.resp st (Except.ok j)) =
      [("success", JVal.bool false), ("error", JVal.str "Unknown error"),
       ("to", JVal.str phone)] := by
  have hu : jsonGetD j "error" (JVal.str "Unknown error") =
      JVal.str "Unknown error" := by
    rw [jsonGetD, hmiss]
    rfl
  constructor
  · unfold WABridge.handle_error errKindFor
    rw [if_neg hne]
    by_cases hx5 : st = 500
    · subst hx5; simp [hu]
    · by_cases hx4 : st = 400
      · subst hx4; simp [hu]
      · simp [hx5, hx4, hu]
  · unfold WABridge.do_send
    simp [hne, hu]

/-- Witness for C9 at a concrete input: a 404 with an empty JSON object
body raises the fallback message. -/
theorem fallback_message_unknown_error_check :
    WABridge.handle_error 404 (Except.ok []) =
      some (PyExn.bridge (errKindFor 404) (JVal.str "Unknown error") 404) :=
  (fallback_message_unknown_error 404 [] "911" "a" (by decide) rfl).1

lemma kindCount_build_content (a : ContentArgs) :
    kindCount (WABridge.build_content a) = if anyKind a then 1 else 0 := by
  rw [kindCount, filter_isKind_build_content]
  split <;> rfl

lemma kindCount_cons_not_kind (k : String) (v : JVal) (b : Json)
    (h : isKind k = false) : kindCount ((k, v) :: b) = kindCount b := by
  simp [kindCount, List.filter_cons, h]

/-- C7 counterexample: `send()` with no arguments posts the empty payload
to `/send/self`, whose body contains zero of the five kind fields rather
than exactly one. -/
theorem send_body_zero_kinds_counterexample :
    WABridge.send Target.noArg ContentArgs.noArgs =
      SendAction.post "/send/self" []
    ∧ kindCount [] ≠ 1 :=
  ⟨rfl, by decide⟩

/-- C7 amended: every request body produced by a single-message send
operation (`send`, `send_group`, `send_channel`, including the
send-to-self path) contains at most one of the five kind fields, and
exactly one whenever at least one message/media option carries a
non-empty value. -/
theorem send_bodies_at_most_one_kind (pom : Target) (a : ContentArgs)
    (gid cid : String) (b gb cb : Json)
    (hpost : (WABridge.send pom a).bodyOf = some b)
    (hg : (WABridge.send_group gid a).bodyOf = some gb)
    (hc : (WABridge.send_channel cid a).bodyOf = some cb) :
    kindCount b ≤ 1 ∧ kindCount gb ≤ 1 ∧ kindCount cb ≤ 1
    ∧ (anyKind a = true →
        kindCount b = 1 ∧ kindCount gb = 1 ∧ kindCount cb = 1) := by
  have hgb : gb = ("groupId", JVal.str gid) :: WABridge.build_content a := by
    simp [WABridge.send_group, SendAction.bodyOf] at hg
    exact hg.symm
  have hcb : cb = ("channelId", JVal.str cid) :: WABridge.build_content a := by
    simp [WABridge.send_channel, SendAction.bodyOf] at hc
    exact hc.symm
  have hkg : kindCount gb = kindCount (WABridge.build_content a) := by
    rw [hgb, kindCount_cons_not_kind _ _ _ (by decide)]
  have hkc : kindCount cb = kindCount (WABridge.build_content a) := by
    rw [hcb, kindCount_cons_not_kind _ _ _ (by decide)]
  have hbc : kindCount b ≤ 1 ∧ (anyKind a = true → kindCount b = 1) := by
    cases pom with
    | many items => simp [WABridge.send, SendAction.bodyOf] at hpost
    | noArg =>
      have hb : b = WABridge.build_content a := by
        simp [WABridge.send, SendAction.bodyOf] at hpost
        exact hpost.symm
      rw [hb, kindCount_build_content]
      constructor
      · split <;> omega
      · intro ha
        rw [if_pos ha]
    | str s =>
      by_cases hmed :
          (truthy a.image || truthy a.video || truthy a.audio ||
            truthy a.document) = true
      · have hb : b = ("phone", JVal.str s) :: WABridge.build_content a := by
          simp [WABridge.send, hmed, SendAction.bodyOf] at hpost
          exact hpost.symm
        have hany : anyKind a = true := by
          unfold anyKind
          rw [hmed]
          simp
        rw [hb, kindCount_cons_not_kind _ _ _ (by decide),
          kindCount_build_content, if_pos hany]
        exact ⟨le_refl 1, fun _ => rfl⟩
      · cases hmsg : a.message with
        | none =>
          have hb : b = [("message", JVal.str s)] := by
            simp [WABridge.send, hmed, hmsg, SendAction.bodyOf] at hpost
            exact hpost.symm
          have h1 : kindCount b = 1 := by rw [hb]; rfl
          exact ⟨le_of_eq h1, fun _ => h1⟩
        | some m =>
          have hb : b = [("phone", JVal.str s), ("message", JVal.str m)] := by
            simp [WABridge.send, hmed, hmsg, SendAction.bodyOf] at hpost
            exact hpost.symm
          have h1 : kindCount b = 1 := by rw [hb]; rfl
          exact ⟨le_of_eq h1, fun _ => h1⟩
  refine ⟨hbc.1, ?_, ?_, fun ha => ⟨hbc.2 ha, ?_, ?_⟩⟩
  · rw [hkg, kindCount_build_content]
    split <;> omega
  · rw [hkc, kindCount_build_content]
    split <;> omega
  · rw [hkg, kindCount_build_content, if_pos ha]
  · rw [hkc, kindCount_build_content, if_pos ha]

/-- Witness for the amended C7 at a concrete input: a phone-plus-message
send carries exactly the `message` kind field. -/
theorem send_bodies_at_most_one_kind_check :
    kindCount [("phone", JVal.str "911"), ("message", JVal.str "yo")] = 1 :=
  ((send_bodies_at_most_one_kind (Target.str "911") { message := some "yo" }
    "g" "c"
    [("phone", JVal.str "911"), ("message", JVal.str "yo")]
    [("groupId", JVal.str "g"), ("message", JVal.str "yo")]
    [("channelId", JVal.str "c"), ("message", JVal.str "yo")]
    rfl rfl rfl).2.2.2 (by decide)).1

lemma async_send_many_length (outcomes : Nat → HttpOutcome)
    (msgs : List (String × String)) :
    (AsyncWABridge.send_many outcomes msgs).length = msgs.length := by
  simp [AsyncWABridge.send_many]

lemma async_send_many_getElem (outcomes : Nat → HttpOutcome)
    (msgs : List (String × String)) (i : Nat) (hi : i < msgs.length) :
    (AsyncWABridge.send_many outcomes msgs)[i]? =
      some (AsyncWABridge.do_send (msgs.get ⟨i, hi⟩).1 (msgs.get ⟨i, hi⟩).2
        (outcomes i)) := by
  rw [AsyncWABridge.send_many, List.getElem?_map, List.getElem?_enum,
    List.getElem?_eq_getElem hi]
  rfl

/-- C8: the synchronous and asynchronous clients behave identically: same
payload construction, same routing to endpoints and request bodies, same
error translation, and the same batch results (the sync
write-back-by-index result equals the async in-order gather, for every
completion order). -/
theorem sync_async_equivalent :
    (∀ a, AsyncWABridge.build_content a = WABridge.build_content a)
    ∧ (∀ st body, AsyncWABridge.handle_error st body =
        WABridge.handle_error st body)
    ∧ (∀ o, AsyncWABridge.request o = WABridge.request o)
    ∧ (∀ o, AsyncWABridge.status o = WABridge.status o)
    ∧ (∀ o, AsyncWABridge.groups o = WABridge.groups o)
    ∧ (∀ o, AsyncWABridge.is_connected o = WABridge.is_connected o)
    ∧ (∀ pom a, AsyncWABridge.send pom a = WABridge.send pom a)
    ∧ (∀ gid a, AsyncWABridge.send_group gid a = WABridge.send_group gid a)
    ∧ (∀ cid a, AsyncWABridge.send_channel cid a = WABridge.send_channel cid a)
    ∧ (∀ phone msg o, AsyncWABridge.do_send phone msg o =
        WABridge.do_send phone msg o)
    ∧ (∀ outcomes msgs completed,
        completed.Perm (WABridge.futures outcomes msgs) →
        WABridge.send_many msgs completed =
          (AsyncWABridge.send_many outcomes msgs).map some) := by
  refine ⟨fun _ => rfl, fun _ _ => rfl, fun _ => rfl, fun _ => rfl, fun _ => rfl,
    fun _ => rfl, fun _ _ => rfl, fun _ _ => rfl, fun _ _ => rfl,
    fun _ _ _ => rfl, ?_⟩
  intro outcomes msgs completed hperm
  apply List.ext_getElem?
  intro i
  by_cases hi : i < msgs.length
  · rw [WABridge.send_many_getElem outcomes msgs completed hperm i hi,
      List.getElem?_map, async_send_many_getElem outcomes msgs i hi]
    rfl
  · rw [List.getElem?_eq_none (by rw [WABridge.send_many_length]; omega),
      List.getElem?_eq_none
        (by rw [List.length_map, async_send_many_length]; omega)]

/-- Witness for C8 at a concrete input: one unreachable-server item, sync
batch result equals the async gather result. -/
theorem sync_async_equivalent_check :
    WABridge.send_many [("911", "hi")]
        (WABridge.futures (fun _ => HttpOutcome.exn "down") [("911", "hi")]) =
      (AsyncWABridge.send_many (fun _ => HttpOutcome.exn "down")
        [("911", "hi")]).map some :=
  sync_async_equivalent.2.2.2.2.2.2.2.2.2.2 (fun _ => HttpOutcome.exn "down")
    [("911", "hi")] _ (List.Perm.refl _)

/-- C10: the payload builder treats empty-string option values as absent:
with `message=""` and no truthy media option the payload is empty, so
`send_group(gid, "")` posts only `{groupId: gid}`, while the direct
phone-plus-message path preserves the empty string
(`send(phone, "")` posts `{phone, message: ""}`); exceptionally,
`ptt=False` is still emitted whenever `audio` is non-empty. -/
theorem empty_string_treated_as_absent (gid phone : String) (a : ContentArgs)
    (hm : a.message = some "") (h1 : truthy a.image = false)
    (h2 : truthy a.video = false) (h3 : truthy a.audio = false)
    (h4 : truthy a.document = false) :
    WABridge.build_content a = []
    ∧ WABridge.send_group gid a =
        SendAction.post "/send/group" [("groupId", JVal.str gid)]
    ∧ WABridge.send (Target.str phone) a =
        SendAction.post "/send" [("phone", JVal.str phone), ("message", JVal.str "")]
    ∧ ∀ b : ContentArgs, truthy b.image = false → truthy b.video = false →
        truthy b.audio = true → b.ptt = some false →
        ("ptt", JVal.bool false) ∈ WABridge.build_content b := by
  have hmt : truthy a.message = false := by rw [hm]; rfl
  have hbc : WABridge.build_content a = [] := by
    simp [WABridge.build_content, h1, h2, h3, h4, hmt]
  refine ⟨hbc, ?_, ?_, ?_⟩
  · rw [WABridge.send_group, hbc]
  · simp [WABridge.send, h1, h2, h3, h4, hm]
  · intro b hbi hbv hba hbp
    simp [WABridge.build_content, hbi, hbv, hba, hbp]

/-- Witness for C10 at a concrete input: an empty message alone yields the
empty payload. -/
theorem empty_string_treated_as_absent_check :
    WABridge.build_content { message := some "" } = [] :=
  (empty_string_treated_as_absent "g" "911" { message := some "" }
    rfl rfl rfl rfl rfl).1
